import Mathlib

/-!
Verification of the music-bites snippet editor
(`src/app/music-inspiration-repo.tsx`, `src/lib/supabase.ts`).

The development shallowly embeds the component's state and its event
handlers.  JavaScript strings are Lean `String`s, JS numbers that the
program uses as integers are `Int`/`Nat`, `localStorage` is modelled as
an `Option (List MusicSnippet)` (the parsed content of the single
`"musicSnippets"` key), and the Supabase client is modelled by a
`hasSupabase : Bool` (configuration present) together with a per-call
failure oracle (`remoteFails : Bool`), since the remote store itself is
an external collaborator.  React closure semantics are modelled
explicitly: an event handler captures the state of the render that
created it, so the `snippets` value read inside `saveSnippet` is the
collection as of the start of the event, not the value passed to
`setSnippets` during the event.
-/

namespace MusicBites

/-! ## Time codec (lines 262-281 of `music-inspiration-repo.tsx`) -/

/-- JS `String.prototype.split` with a single-character separator,
on the character list. `"".split(":") = [""]`, `"a:".split(":") = ["a",""]`. -/
def splitOnChar (sep : Char) : List Char → List (List Char)
  | [] => [[]]
  | c :: cs =>
    if c = sep then [] :: splitOnChar sep cs
    else
      match splitOnChar sep cs with
      | [] => [[c]]
      | p :: ps => (c :: p) :: ps

/-- JS `s.split(sep)` for a one-character separator, producing strings. -/
def jsSplit (sep : Char) (s : String) : List String :=
  (splitOnChar sep s.data).map String.mk

/-- The whitespace characters JS `parseInt` skips (the ASCII ones;
the Unicode space characters cannot occur in this program's inputs). -/
def jsWhitespace (c : Char) : Bool :=
  c = ' ' || c = '\t' || c = '\n' || c = '\r' || c = '\x0b' || c = '\x0c'

/-- Value of a decimal digit list (most significant first). -/
def decValue (ds : List Char) : Nat :=
  ds.foldl (fun a c => 10 * a + (c.toNat - 48)) 0

/-- Hex digit test, as in JS `parseInt` with an `0x` prefix. -/
def isHexDigit (c : Char) : Bool :=
  c.isDigit || ('a' ≤ c && c ≤ 'f') || ('A' ≤ c && c ≤ 'F')

/-- Value of one hex digit. -/
def hexDigitValue (c : Char) : Nat :=
  if c.isDigit then c.toNat - 48
  else if 'a' ≤ c && c ≤ 'f' then c.toNat - 87
  else c.toNat - 55

/-- Value of a hex digit list (most significant first). -/
def hexValue (ds : List Char) : Nat :=
  ds.foldl (fun a c => 16 * a + hexDigitValue c) 0

/-- JS `Number.parseInt(s)` (no radix argument): skip leading whitespace,
read an optional sign, auto-detect an `0x`/`0X` prefix as hexadecimal,
then take the longest digit prefix; `none` models `NaN`. -/
def jsParseInt (s : String) : Option Int :=
  let cs := s.data.dropWhile jsWhitespace
  let (sign, cs) : Int × List Char :=
    match cs with
    | '-' :: rest => (-1, rest)
    | '+' :: rest => (1, rest)
    | _ => (1, cs)
  match cs with
  | '0' :: x :: rest =>
    if x = 'x' || x = 'X' then
      let ds := rest.takeWhile isHexDigit
      if ds.isEmpty then none else some (sign * (hexValue ds : Int))
    else
      let ds := (('0' :: x :: rest).takeWhile Char.isDigit)
      if ds.isEmpty then none else some (sign * (decValue ds : Int))
  | _ =>
    let ds := cs.takeWhile Char.isDigit
    if ds.isEmpty then none else some (sign * (decValue ds : Int))

/-- Model of `Number.parseInt(s) || 0`: `NaN` (and `0` itself) become `0`. -/
def parseIntOr0 (s : String) : Int :=
  match jsParseInt s with
  | some v => v
  | none => 0

/-- Model of `timeToSeconds` (lines 262-270): split on `":"`, require exactly two
parts, lenient-parse each part, return `minutes*60 + seconds`. -/
def timeToSeconds (timeStr : String) : Int :=
  match jsSplit ':' timeStr with
  | [p0, p1] => parseIntOr0 p0 * 60 + parseIntOr0 p1
  | _ => 0

/-- JS `String.prototype.padStart(n, c)`. -/
def padStart (s : String) (n : Nat) (c : Char) : String :=
  String.mk (List.replicate (n - s.length) c) ++ s

/-- Model of `secondsToTime` (lines 272-276): `Math.floor(seconds/60)` is `Int.fdiv`
on integers (JS `/` is real division, floored); `Math.floor(seconds % 60)`
is `Int.tmod` (JS `%` truncates toward zero and is integral on integral
arguments, so the outer `floor` is the identity). -/
def secondsToTime (seconds : Int) : String :=
  let mins := Int.fdiv seconds 60
  let secs := Int.tmod seconds 60
  toString mins ++ ":" ++ padStart (toString secs) 2 '0'

/-- Model of `validateTimeFormat` (lines 278-281): the regex `^\d{1,2}:\d{2}$`. -/
def validateTimeFormat (timeStr : String) : Bool :=
  match timeStr.data with
  | [m1, c, s1, s2] => m1.isDigit && c = ':' && s1.isDigit && s2.isDigit
  | [m1, m2, c, s1, s2] => m1.isDigit && m2.isDigit && c = ':' && s1.isDigit && s2.isDigit
  | _ => false

/-- Zero-padding normalization of the minutes part of an accepted time
string: a two-digit minutes field with a leading `'0'` is printed by
`secondsToTime` without that padding, so normalization drops it.
(This definition follows the spec's words, for the round-trip claim.) -/
def stripMinutePad (s : String) : String :=
  match s.data with
  | [m1, m2, c, s1, s2] =>
    if m1 = '0' ∧ c = ':' then String.mk [m2, ':', s1, s2] else s
  | _ => s

/-- The seconds field of an accepted time string denotes fewer than 60
seconds, i.e. its tens digit is at most `'5'`. -/
def secondsPartLt60 (s : String) : Bool :=
  match s.data with
  | [_, _, s1, _] => s1 ≤ '5'
  | [_, _, _, s1, _] => s1 ≤ '5'
  | _ => false

/-- The character of a decimal digit value. -/
def digitChar (n : Nat) : Char := Char.ofNat (48 + n)

/-- Whether `pat` is a prefix of the second list. -/
def startsWithChars : List Char → List Char → Bool
  | [], _ => true
  | _ :: _, [] => false
  | p :: ps, c :: cs => p = c && startsWithChars ps cs

/-- Substring occurrence of `pat` at any position of the list. -/
def jsIncludesChars (pat : List Char) : List Char → Bool
  | [] => startsWithChars pat []
  | c :: t => startsWithChars pat (c :: t) || jsIncludesChars pat t

/-- JS `s.includes(sub)`. -/
def jsIncludes (s sub : String) : Bool :=
  jsIncludesChars sub.data s.data

/-! ## Data model (lines 14-24) -/

/-- The `audio_type` tag: `"file" | "spotify" | "soundcloud"`. -/
inductive AudioType where
  | file
  | spotify
  | soundcloud
deriving DecidableEq, Repr

/-- The `MusicSnippet` record (lines 14-24). `audio_url : string | null`
becomes `Option String`; `position : number` is always assigned a
collection length, hence `Nat`. -/
structure MusicSnippet where
  id : String
  song_name : String
  audio_type : AudioType
  audio_url : Option String
  spotify_url : String
  soundcloud_url : String
  start_time : String
  notes : String
  position : Nat
deriving DecidableEq, Repr

/-- The names of the fields of `MusicSnippet` (`keyof MusicSnippet`). -/
inductive FieldName where
  | id
  | song_name
  | audio_type
  | audio_url
  | spotify_url
  | soundcloud_url
  | start_time
  | notes
  | position
deriving DecidableEq, Repr

/-- A dynamic field update `[field]: value`, one constructor per field,
each carrying a value of that field's type. -/
inductive FieldUpdate where
  | id (v : String)
  | song_name (v : String)
  | audio_type (v : AudioType)
  | audio_url (v : Option String)
  | spotify_url (v : String)
  | soundcloud_url (v : String)
  | start_time (v : String)
  | notes (v : String)
  | position (v : Nat)
deriving DecidableEq, Repr

/-- The field a `FieldUpdate` targets. -/
def FieldUpdate.name : FieldUpdate → FieldName
  | .id _ => .id
  | .song_name _ => .song_name
  | .audio_type _ => .audio_type
  | .audio_url _ => .audio_url
  | .spotify_url _ => .spotify_url
  | .soundcloud_url _ => .soundcloud_url
  | .start_time _ => .start_time
  | .notes _ => .notes
  | .position _ => .position

/-- The record spread `{ ...snippet, [field]: value }`. -/
def MusicSnippet.setField (s : MusicSnippet) : FieldUpdate → MusicSnippet
  | .id v => { s with id := v }
  | .song_name v => { s with song_name := v }
  | .audio_type v => { s with audio_type := v }
  | .audio_url v => { s with audio_url := v }
  | .spotify_url v => { s with spotify_url := v }
  | .soundcloud_url v => { s with soundcloud_url := v }
  | .start_time v => { s with start_time := v }
  | .notes v => { s with notes := v }
  | .position v => { s with position := v }

/-- Predicate: `t` carries the value of update `u` in `u`'s field. -/
def SetsField : FieldUpdate → MusicSnippet → Prop
  | .id v, t => t.id = v
  | .song_name v, t => t.song_name = v
  | .audio_type v, t => t.audio_type = v
  | .audio_url v, t => t.audio_url = v
  | .spotify_url v, t => t.spotify_url = v
  | .soundcloud_url v, t => t.soundcloud_url = v
  | .start_time v, t => t.start_time = v
  | .notes v, t => t.notes = v
  | .position v, t => t.position = v

/-- Predicate: `s` and `t` agree on every field other than `f`. -/
def AgreesExcept (f : FieldName) (s t : MusicSnippet) : Prop :=
  (f ≠ .id → t.id = s.id) ∧
  (f ≠ .song_name → t.song_name = s.song_name) ∧
  (f ≠ .audio_type → t.audio_type = s.audio_type) ∧
  (f ≠ .audio_url → t.audio_url = s.audio_url) ∧
  (f ≠ .spotify_url → t.spotify_url = s.spotify_url) ∧
  (f ≠ .soundcloud_url → t.soundcloud_url = s.soundcloud_url) ∧
  (f ≠ .start_time → t.start_time = s.start_time) ∧
  (f ≠ .notes → t.notes = s.notes) ∧
  (f ≠ .position → t.position = s.position)

/-! ## Component state and event handlers (lines 106-407)

The component state consists of the in-memory collection (`snippets`),
the currently-playing id (`currentlyPlaying`), the fallback flag
(`useLocalStorage`), the content of the `"musicSnippets"` localStorage
key (`localBlob`), plus the playback-relevant part of the browser
environment: which ids have a mounted `<audio>` element (`audioRefs`)
and which of those elements are in the playing state (`playing`).
`loading`/`saving` are pure UI spinner flags and are not modelled. -/

structure AppState where
  snippets : List MusicSnippet
  currentlyPlaying : Option String
  useLocalStorage : Bool
  localBlob : Option (List MusicSnippet)
  audioRefs : Finset String
  playing : Finset String
deriving DecidableEq

/-- The mirroring effect (lines 127-131): after state updates settle,
if `useLocalStorage` is set and the collection is non-empty, the whole
collection is serialized into the localStorage key. -/
def runEffect (st : AppState) : AppState :=
  if st.useLocalStorage && decide (0 < st.snippets.length) then
    { st with localBlob := some st.snippets }
  else st

/-- Model of `saveSnippet` (lines 168-201).  `snippetsClosure` is the `snippets`
value captured by the handler's render closure (the collection as of the
start of the event, unaffected by `setSnippets` calls made during it).
The returned `Bool` records whether a remote upsert was attempted: the
function contacts Supabase exactly when the client is configured,
regardless of the `useLocalStorage` flag. -/
def saveSnippet (hasSupabase remoteFails : Bool)
    (snippetsClosure : List MusicSnippet) (snippet : MusicSnippet)
    (st : AppState) : AppState × Bool :=
  if !hasSupabase then
    let updated := snippetsClosure.map (fun s => if s.id == snippet.id then snippet else s)
    ({ st with localBlob := some updated }, false)
  else if remoteFails then
    let updated := snippetsClosure.map (fun s => if s.id == snippet.id then snippet else s)
    ({ st with localBlob := some updated, useLocalStorage := true }, true)
  else
    (st, true)

/-- The snippet `addNewSnippet` constructs (lines 204-214), with the
`Date.now().toString()` id passed in as `fid`. -/
def newSnippet (fid : String) (len : Nat) : MusicSnippet :=
  { id := fid
    song_name := ""
    audio_type := .file
    audio_url := none
    spotify_url := ""
    soundcloud_url := ""
    start_time := "0:00"
    notes := ""
    position := len }

/-- The `addNewSnippet` event (lines 203-218), followed by the mirroring
effect.  Returns the settled state and whether a remote upsert was
attempted. -/
def addSnippetEvent (hasSupabase remoteFails : Bool) (fid : String)
    (st : AppState) : AppState × Bool :=
  let snippets0 := st.snippets
  let newS := newSnippet fid snippets0.length
  let st1 := { st with snippets := snippets0 ++ [newS] }
  let res := saveSnippet hasSupabase remoteFails snippets0 newS st1
  (runEffect res.1, res.2)

/-- The in-memory collection transform of `updateSnippet` (line 253). -/
def updateSnippetList (snippets : List MusicSnippet) (id : String)
    (u : FieldUpdate) : List MusicSnippet :=
  snippets.map (fun s => if s.id == id then s.setField u else s)

/-- The `updateSnippet` event (lines 248-260), followed by the mirroring
effect.  Returns the settled state and whether a remote upsert was
attempted. -/
def updateSnippetEvent (hasSupabase remoteFails : Bool) (id : String)
    (u : FieldUpdate) (st : AppState) : AppState × Bool :=
  let snippets0 := st.snippets
  let updated := updateSnippetList snippets0 id u
  let st1 := { st with snippets := updated }
  match updated.find? (fun s => s.id == id) with
  | some sn =>
    let res := saveSnippet hasSupabase remoteFails snippets0 sn st1
    (runEffect res.1, res.2)
  | none => (runEffect st1, false)

/-- The `deleteSnippet` event (lines 220-246), followed by the mirroring
effect.  The `useLocalStorage` value read at line 235 is the render
closure's (pre-event) one.  Returns the settled state and whether a
remote delete was attempted. -/
def deleteSnippetEvent (hasSupabase remoteFails : Bool) (id : String)
    (st : AppState) : AppState × Bool :=
  let useLS0 := st.useLocalStorage
  let st1 : AppState := if hasSupabase && remoteFails then { st with useLocalStorage := true } else st
  let updated := st.snippets.filter (fun s => s.id != id)
  let st2 : AppState := { st1 with snippets := updated }
  let st3 : AppState := if !hasSupabase || useLS0 then { st2 with localBlob := some updated } else st2
  let st4 : AppState :=
    if id ∈ st3.audioRefs then
      { st3 with playing := st3.playing.erase id, audioRefs := st3.audioRefs.erase id }
    else st3
  let st5 := if st4.currentlyPlaying == some id then { st4 with currentlyPlaying := none } else st4
  (runEffect st5, hasSupabase)

/-- Model of `togglePlayPause` (lines 384-403).  No-op when there is no mounted
audio element or no snippet for `id`; pausing the current snippet clears
`currentlyPlaying`; playing first pauses every mounted element, then
starts `id` (the seek to a non-default `start_time` does not affect
which elements are playing and is not tracked). -/
def togglePlayPauseEvent (id : String) (st : AppState) : AppState :=
  if id ∈ st.audioRefs ∧ (st.snippets.find? (fun s => s.id == id)).isSome then
    if st.currentlyPlaying == some id then
      { st with playing := st.playing.erase id, currentlyPlaying := none }
    else
      { st with playing := {id}, currentlyPlaying := some id }
  else st

/-- Model of `handleAudioEnded` (lines 405-407): the element for `id` has stopped
by itself (hence leaves the playing set), and the handler clears
`currentlyPlaying` (unconditionally: it ignores its argument). -/
def handleAudioEndedEvent (id : String) (st : AppState) : AppState :=
  { st with playing := st.playing.erase id, currentlyPlaying := none }

/-- The playback-relevant events: play/pause toggles, natural
end-of-playback, and snippet deletion (with its remote-failure oracle). -/
inductive PEvent where
  | toggle (id : String)
  | ended (id : String)
  | del (remoteFails : Bool) (id : String)
deriving DecidableEq, Repr

/-- One playback-relevant event step. -/
def stepPlay (hasSupabase : Bool) (st : AppState) : PEvent → AppState
  | .toggle id => togglePlayPauseEvent id st
  | .ended id => handleAudioEndedEvent id st
  | .del rf id => (deleteSnippetEvent hasSupabase rf id st).1

/-- Run a sequence of playback-relevant events. -/
def runPlayEvents (hasSupabase : Bool) (evs : List PEvent) (st : AppState) : AppState :=
  evs.foldl (stepPlay hasSupabase) st

/-- Model of `handleSpotifyUrlChange` (lines 338-358).  `trackInfo` is the result
of the awaited `fetchSpotifyTrackInfo` call (`none` models a failed
fetch, a non-ok response, or an absent/empty title turned into `null`
by `data.title || null`); the handler's own `if (trackInfo)` truthiness
test is the `title ≠ ""` guard.  Both `snippets.map` calls read the
render closure's `snippets`, i.e. the pre-event collection. -/
def handleSpotifyUrlChange (hasSupabase remoteFails1 remoteFails2 : Bool)
    (id url : String) (trackInfo : Option String) (st : AppState) : AppState :=
  let snippets0 := st.snippets
  let updated := snippets0.map (fun s => if s.id == id then { s with spotify_url := url } else s)
  let st1 := { st with snippets := updated }
  let st2 :=
    match updated.find? (fun s => s.id == id) with
    | some sn => (saveSnippet hasSupabase remoteFails1 snippets0 sn st1).1
    | none => st1
  if url != "" && jsIncludes url "spotify.com/track/" then
    match trackInfo with
    | some title =>
      if title != "" then
        let finalS := snippets0.map (fun s =>
          if s.id == id then { s with song_name := if s.song_name == "" then title else s.song_name } else s)
        let st3 := { st2 with snippets := finalS }
        let st4 :=
          match finalS.find? (fun s => s.id == id) with
          | some sn => (saveSnippet hasSupabase remoteFails2 snippets0 sn st3).1
          | none => st3
        runEffect st4
      else runEffect st2
    | none => runEffect st2
  else runEffect st2

/-- Model of `handleSoundCloudUrlChange` (lines 360-382), same structure as the
Spotify handler with the `soundcloud.com/` URL test. -/
def handleSoundCloudUrlChange (hasSupabase remoteFails1 remoteFails2 : Bool)
    (id url : String) (trackInfo : Option String) (st : AppState) : AppState :=
  let snippets0 := st.snippets
  let updated := snippets0.map (fun s => if s.id == id then { s with soundcloud_url := url } else s)
  let st1 := { st with snippets := updated }
  let st2 :=
    match updated.find? (fun s => s.id == id) with
    | some sn => (saveSnippet hasSupabase remoteFails1 snippets0 sn st1).1
    | none => st1
  if url != "" && jsIncludes url "soundcloud.com/" then
    match trackInfo with
    | some title =>
      if title != "" then
        let finalS := snippets0.map (fun s =>
          if s.id == id then { s with song_name := if s.song_name == "" then title else s.song_name } else s)
        let st3 := { st2 with snippets := finalS }
        let st4 :=
          match finalS.find? (fun s => s.id == id) with
          | some sn => (saveSnippet hasSupabase remoteFails2 snippets0 sn st3).1
          | none => st3
        runEffect st4
      else runEffect st2
    | none => runEffect st2
  else runEffect st2

end MusicBites

namespace MusicBites

/-! ## General helper lemmas -/

theorem map_eq_self_of {α : Type} (f : α → α) (l : List α) (h : ∀ a ∈ l, f a = a) :
    l.map f = l := by
  induction l with
  | nil => rfl
  | cons a l ih =>
    simp only [List.map_cons, List.cons.injEq]
    exact ⟨h a (by simp), ih (fun b hb => h b (by simp [hb]))⟩

theorem forall₂_map_self {α β : Type} (r : α → β → Prop) (l : List α) (f : α → β)
    (h : ∀ a ∈ l, r a (f a)) : List.Forall₂ r l (l.map f) := by
  rw [List.forall₂_map_right_iff]
  exact List.forall₂_same.mpr h

theorem fdiv_ofNat (a b : Nat) : Int.fdiv (Int.ofNat a) (Int.ofNat b) = Int.ofNat (a / b) := by
  cases a with
  | zero => rw [Nat.zero_div]; rfl
  | succ n => rfl

theorem tmod_ofNat (a b : Nat) : Int.tmod (Int.ofNat a) (Int.ofNat b) = Int.ofNat (a % b) := by
  cases a <;> cases b <;> rfl

theorem string_mk_append (l1 l2 : List Char) :
    String.mk l1 ++ String.mk l2 = String.mk (l1 ++ l2) := rfl

/-! ## Helper lemmas about the event handlers -/

theorem saveSnippet_fst_snippets (hS rf : Bool) (cl : List MusicSnippet)
    (sn : MusicSnippet) (st : AppState) :
    (saveSnippet hS rf cl sn st).1.snippets = st.snippets := by
  unfold saveSnippet
  split
  · rfl
  · split <;> rfl

theorem saveSnippet_fst_playing (hS rf : Bool) (cl : List MusicSnippet)
    (sn : MusicSnippet) (st : AppState) :
    (saveSnippet hS rf cl sn st).1.playing = st.playing := by
  unfold saveSnippet
  split
  · rfl
  · split <;> rfl

theorem saveSnippet_attempted (rf : Bool) (cl : List MusicSnippet)
    (sn : MusicSnippet) (st : AppState) :
    (saveSnippet true rf cl sn st).2 = true := by
  unfold saveSnippet
  cases rf <;> rfl

theorem saveSnippet_fail (cl : List MusicSnippet) (sn : MusicSnippet) (st : AppState) :
    saveSnippet true true cl sn st =
      ({ st with localBlob := some (cl.map (fun s => if s.id == sn.id then sn else s)),
                 useLocalStorage := true }, true) := rfl

theorem runEffect_snippets (st : AppState) : (runEffect st).snippets = st.snippets := by
  unfold runEffect
  split <;> rfl

theorem runEffect_playing (st : AppState) : (runEffect st).playing = st.playing := by
  unfold runEffect
  split <;> rfl

theorem runEffect_useLocalStorage (st : AppState) :
    (runEffect st).useLocalStorage = st.useLocalStorage := by
  unfold runEffect
  split <;> rfl

theorem runEffect_of_local (st : AppState) (h1 : st.useLocalStorage = true)
    (h2 : 0 < st.snippets.length) :
    runEffect st = { st with localBlob := some st.snippets } := by
  unfold runEffect
  rw [if_pos]
  simp [h1, h2]

theorem addSnippetEvent_fst_snippets (hS rf : Bool) (fid : String) (st : AppState) :
    ((addSnippetEvent hS rf fid st).1).snippets =
      st.snippets ++ [newSnippet fid st.snippets.length] := by
  unfold addSnippetEvent
  rw [runEffect_snippets, saveSnippet_fst_snippets]

theorem updateSnippetEvent_fst_snippets (hS rf : Bool) (id : String) (u : FieldUpdate)
    (st : AppState) :
    ((updateSnippetEvent hS rf id u st).1).snippets = updateSnippetList st.snippets id u := by
  unfold updateSnippetEvent
  cases h : (updateSnippetList st.snippets id u).find? (fun s => s.id == id) with
  | none => simp only [h, runEffect_snippets]
  | some sn => simp only [h, runEffect_snippets, saveSnippet_fst_snippets]

theorem deleteSnippetEvent_fst_snippets (hS rf : Bool) (id : String) (st : AppState) :
    ((deleteSnippetEvent hS rf id st).1).snippets =
      st.snippets.filter (fun s => s.id != id) := by
  unfold deleteSnippetEvent
  rw [runEffect_snippets]
  split <;> split <;> split <;> split <;> rfl

theorem deleteSnippetEvent_fst_playing (hS rf : Bool) (id : String) (st : AppState) :
    ((deleteSnippetEvent hS rf id st).1).playing = st.playing ∨
    ((deleteSnippetEvent hS rf id st).1).playing = st.playing.erase id := by
  unfold deleteSnippetEvent
  rw [runEffect_playing]
  split <;> split <;> split <;> split <;> simp

end MusicBites

namespace MusicBites

theorem setField_frame (s : MusicSnippet) (u : FieldUpdate) :
    SetsField u (s.setField u) ∧ AgreesExcept u.name s (s.setField u) := by
  cases u <;>
    simp [SetsField, AgreesExcept, FieldUpdate.name, MusicSnippet.setField]

/-- C10: `secondsToTime` can produce a string `validateTimeFormat`
rejects: at `n = 6000` seconds the output is `"100:00"`, whose minutes
part has three digits, so a start time captured from playback at or
beyond 100 minutes fails the validator guarding the time field. -/
theorem formatTime_escapes_validator :
    (∃ n : Nat, validateTimeFormat (secondsToTime (Int.ofNat n)) = false) ∧
    secondsToTime 6000 = "100:00" ∧
    validateTimeFormat (secondsToTime 6000) = false :=
  ⟨⟨6000, by decide⟩, by decide, by decide⟩

/-- C8: `timeToSeconds` returns 0 unless splitting on `":"` yields
exactly two parts, is lenient on its parts, and satisfies the four
quoted evaluations; `secondsToTime n` for a nonnegative integer is
`n / 60`, a colon, and `n % 60` zero-padded to two digits. -/
theorem time_codec_spec :
    timeToSeconds "2:05" = 125 ∧ timeToSeconds "bad" = 0 ∧
    timeToSeconds "1:" = 60 ∧ timeToSeconds "x:30" = 30 ∧
    secondsToTime 125 = "2:05" ∧ secondsToTime 59 = "0:59" ∧
    (∀ s : String, (jsSplit ':' s).length = 2 ∨ timeToSeconds s = 0) ∧
    (∀ n : Nat, secondsToTime (Int.ofNat n) =
      toString (n / 60) ++ ":" ++ padStart (toString (n % 60)) 2 '0') := by
  refine ⟨by decide, by decide, by decide, by decide, by decide, by decide, ?_, ?_⟩
  · intro s
    unfold timeToSeconds
    match h : jsSplit ':' s with
    | [] => simp
    | [a] => simp
    | [a, b] => left; rfl
    | a :: b :: c :: rest => simp
  · intro n
    unfold secondsToTime
    rw [show (60 : Int) = Int.ofNat 60 from rfl, fdiv_ofNat, tmod_ofNat]
    rfl

/-- C4: `updateSnippet`'s collection transform replaces exactly the
targeted field on every snippet with matching `id`, preserving that
snippet's other fields, leaves snippets with other ids unchanged, and
is a no-op on the collection when no snippet has the given id. -/
theorem updateField_frame (snippets : List MusicSnippet) (id : String) (u : FieldUpdate) :
    ((∀ s ∈ snippets, s.id ≠ id) → updateSnippetList snippets id u = snippets) ∧
    List.Forall₂ (fun s t =>
        (s.id ≠ id → t = s) ∧
        (s.id = id → SetsField u t ∧ AgreesExcept u.name s t))
      snippets (updateSnippetList snippets id u) := by
  constructor
  · intro h
    apply map_eq_self_of
    intro s hs
    rw [if_neg]
    simp [h s hs]
  · apply forall₂_map_self
    intro s _
    constructor
    · intro hne
      rw [if_neg]
      simp [hne]
    · intro heq
      rw [if_pos (by simp [heq])]
      exact setField_frame s u

theorem updateField_frame_witness :
    updateSnippetList [newSnippet "a" 0] "b" (.notes "n") = [newSnippet "a" 0] :=
  (updateField_frame [newSnippet "a" 0] "b" (.notes "n")).1 (by decide)

/-- C6: `addNewSnippet` appends exactly one record — `position` equal to
the collection length before the call, `start_time` `"0:00"`, kind
Uploaded File with no audio reference, and empty name, URLs and notes —
and modifies no existing record. -/
theorem addSnippet_spec (st : AppState) (hS rf : Bool) (fid : String) :
    ((addSnippetEvent hS rf fid st).1).snippets.length = st.snippets.length + 1 ∧
    ((addSnippetEvent hS rf fid st).1).snippets.take st.snippets.length = st.snippets ∧
    ∃ s, ((addSnippetEvent hS rf fid st).1).snippets = st.snippets ++ [s] ∧
      s.id = fid ∧ s.song_name = "" ∧ s.audio_type = .file ∧ s.audio_url = none ∧
      s.spotify_url = "" ∧ s.soundcloud_url = "" ∧ s.start_time = "0:00" ∧
      s.notes = "" ∧ s.position = st.snippets.length := by
  rw [addSnippetEvent_fst_snippets]
  refine ⟨by simp, by simp, newSnippet fid st.snippets.length, rfl, ?_⟩
  simp [newSnippet]

/-- C5: `addNewSnippet` followed by `deleteSnippet` of the new snippet's
id returns the in-memory collection to its prior state, provided the
fresh id does not already occur in the collection. -/
theorem add_then_delete_restores (st : AppState) (hS rf1 rf2 : Bool) (fid : String)
    (h : ∀ s ∈ st.snippets, s.id ≠ fid) :
    ((deleteSnippetEvent hS rf2 fid (addSnippetEvent hS rf1 fid st).1).1).snippets =
      st.snippets := by
  rw [deleteSnippetEvent_fst_snippets, addSnippetEvent_fst_snippets, List.filter_append]
  have h1 : st.snippets.filter (fun s => s.id != fid) = st.snippets :=
    List.filter_eq_self.mpr (fun s hs => by simp [h s hs])
  have h2 : [newSnippet fid st.snippets.length].filter (fun s => s.id != fid) = [] := by
    simp [newSnippet]
  rw [h1, h2, List.append_nil]

theorem add_then_delete_restores_witness :
    ((deleteSnippetEvent true false "b"
        (addSnippetEvent true false "b"
          { snippets := [newSnippet "a" 0], currentlyPlaying := none,
            useLocalStorage := false, localBlob := none,
            audioRefs := ∅, playing := ∅ }).1).1).snippets = [newSnippet "a" 0] :=
  add_then_delete_restores
    { snippets := [newSnippet "a" 0], currentlyPlaying := none,
      useLocalStorage := false, localBlob := none, audioRefs := ∅, playing := ∅ }
    true false false "b" (by decide)

/-- C7: switching `audio_type` away from Spotify to Uploaded File and
back via the field-update primitive retains the snippet's original
`spotify_url` (inactive URL fields are kept, not cleared), both on a
single record and across a whole collection driven through the
`updateSnippet` events. -/
theorem kind_switch_preserves_spotify_url :
    (∀ (s : MusicSnippet) (v : String), s.audio_type = .spotify → s.spotify_url = v →
      ((s.setField (.audio_type .file)).setField (.audio_type .spotify)).spotify_url = v) ∧
    (∀ (st : AppState) (hS rf1 rf2 : Bool) (id : String),
      (((updateSnippetEvent hS rf2 id (.audio_type .spotify)
          ((updateSnippetEvent hS rf1 id (.audio_type .file) st).1)).1).snippets.map
        (fun s => s.spotify_url)) = st.snippets.map (fun s => s.spotify_url)) := by
  constructor
  · intro s v _ hv
    simpa [MusicSnippet.setField] using hv
  · intro st hS rf1 rf2 id
    rw [updateSnippetEvent_fst_snippets, updateSnippetEvent_fst_snippets]
    unfold updateSnippetList
    rw [List.map_map, List.map_map]
    apply List.map_congr_left
    intro s _
    by_cases h : s.id = id <;> simp [h, MusicSnippet.setField]

theorem kind_switch_preserves_spotify_url_witness :
    (((((newSnippet "a" 0).setField (.spotify_url "u")).setField
        (.audio_type .spotify)).setField (.audio_type .file)).setField
      (.audio_type .spotify)).spotify_url = "u" :=
  kind_switch_preserves_spotify_url.1
    (((newSnippet "a" 0).setField (.spotify_url "u")).setField (.audio_type .spotify))
    "u" (by decide) (by decide)

end MusicBites

namespace MusicBites

theorem togglePlayPause_card_le (id : String) (st : AppState)
    (h : st.playing.card ≤ 1) : (togglePlayPauseEvent id st).playing.card ≤ 1 := by
  unfold togglePlayPauseEvent
  split
  · split
    · exact le_trans Finset.card_erase_le h
    · simp
  · exact h

theorem handleAudioEnded_card_le (id : String) (st : AppState)
    (h : st.playing.card ≤ 1) : (handleAudioEndedEvent id st).playing.card ≤ 1 :=
  le_trans Finset.card_erase_le h

theorem deleteSnippet_card_le (hS rf : Bool) (id : String) (st : AppState)
    (h : st.playing.card ≤ 1) : ((deleteSnippetEvent hS rf id st).1).playing.card ≤ 1 := by
  rcases deleteSnippetEvent_fst_playing hS rf id st with he | he
  · rw [he]; exact h
  · rw [he]; exact le_trans Finset.card_erase_le h

theorem stepPlay_card_le (hS : Bool) (st : AppState) (e : PEvent)
    (h : st.playing.card ≤ 1) : (stepPlay hS st e).playing.card ≤ 1 := by
  cases e with
  | toggle id => exact togglePlayPause_card_le id st h
  | ended id => exact handleAudioEnded_card_le id st h
  | del rf id => exact deleteSnippet_card_le hS rf id st h

/-- C3: at most one snippet is in the "playing" state at any instant —
from any state in which at most one mounted audio element is playing,
any sequence of play/pause toggles, natural end-of-playback events and
snippet deletions keeps the set of playing elements of size at most
one.  (It has size 0 initially, before any element has been played.) -/
theorem at_most_one_playing (hS : Bool) (evs : List PEvent) (st : AppState)
    (h : st.playing.card ≤ 1) : (runPlayEvents hS evs st).playing.card ≤ 1 := by
  induction evs generalizing st with
  | nil => exact h
  | cons e evs ih =>
    exact ih (stepPlay hS st e) (stepPlay_card_le hS st e h)

theorem at_most_one_playing_witness :
    ((runPlayEvents true [.toggle "a", .toggle "b", .ended "a", .del false "b"]
      { snippets := [newSnippet "a" 0, newSnippet "b" 1], currentlyPlaying := none,
        useLocalStorage := false, localBlob := none,
        audioRefs := {"a", "b"}, playing := ∅ }).playing).card ≤ 1 :=
  at_most_one_playing true [.toggle "a", .toggle "b", .ended "a", .del false "b"]
    { snippets := [newSnippet "a" 0, newSnippet "b" 1], currentlyPlaying := none,
      useLocalStorage := false, localBlob := none,
      audioRefs := {"a", "b"}, playing := ∅ } (by decide)

end MusicBites

namespace MusicBites

theorem addSnippetEvent_fail (fid : String) (st : AppState) :
    (addSnippetEvent true true fid st).1 =
      { st with snippets := st.snippets ++ [newSnippet fid st.snippets.length],
                useLocalStorage := true,
                localBlob := some (st.snippets ++ [newSnippet fid st.snippets.length]) } := by
  show runEffect (saveSnippet true true st.snippets (newSnippet fid st.snippets.length)
    { st with snippets := st.snippets ++ [newSnippet fid st.snippets.length] }).1 = _
  rw [saveSnippet_fail, runEffect_of_local _ rfl (by simp)]

theorem updateSnippetEvent_fail (pid : String) (u : FieldUpdate) (st : AppState)
    (sn : MusicSnippet)
    (h : (updateSnippetList st.snippets pid u).find? (fun s => s.id == pid) = some sn) :
    (updateSnippetEvent true true pid u st).1 =
      { st with snippets := updateSnippetList st.snippets pid u,
                useLocalStorage := true,
                localBlob := some (updateSnippetList st.snippets pid u) } := by
  have hpos : 0 < (updateSnippetList st.snippets pid u).length :=
    List.length_pos.mpr (List.ne_nil_of_mem (List.mem_of_find?_eq_some h))
  unfold updateSnippetEvent
  dsimp only
  rw [h]
  show runEffect (saveSnippet true true st.snippets sn
    { st with snippets := updateSnippetList st.snippets pid u }).1 = _
  rw [saveSnippet_fail, runEffect_of_local _ rfl hpos]

theorem addSnippetEvent_attempted (rf : Bool) (fid : String) (st : AppState) :
    (addSnippetEvent true rf fid st).2 = true :=
  saveSnippet_attempted rf _ _ _

theorem deleteSnippetEvent_attempted (hS rf : Bool) (did : String) (st : AppState) :
    (deleteSnippetEvent hS rf did st).2 = hS := rfl

theorem updateSnippetEvent_attempted (rf : Bool) (pid : String) (u : FieldUpdate)
    (st : AppState) (sn : MusicSnippet)
    (h : (updateSnippetList st.snippets pid u).find? (fun s => s.id == pid) = some sn) :
    (updateSnippetEvent true rf pid u st).2 = true := by
  unfold updateSnippetEvent
  dsimp only
  rw [h]
  exact saveSnippet_attempted rf _ _ _

/-- C1 (amended): in Remote mode (client configured, fallback flag
unset), a failed remote upsert during `saveSnippet` sets the fallback
flag (Local mode) and — once the mirroring effect has run — leaves the
local storage blob equal to the in-memory collection that was current at
failure time, including for a snippet freshly appended by
`addNewSnippet`.  However, subsequent operations do NOT stop contacting
the remote backend: `saveSnippet` and `deleteSnippet` attempt a remote
call exactly when the client is configured, irrespective of the
fallback flag, so every subsequent add/update/delete still attempts
Remote (while local storage continues to be kept in sync by the effect
and the failure handlers). -/
theorem remote_upsert_failure_demotes (st : AppState) (fid pid did : String)
    (u : FieldUpdate) (rf : Bool) (_hmode : st.useLocalStorage = false) :
    (((addSnippetEvent true true fid st).1).useLocalStorage = true ∧
     ((addSnippetEvent true true fid st).1).snippets =
       st.snippets ++ [newSnippet fid st.snippets.length] ∧
     ((addSnippetEvent true true fid st).1).localBlob =
       some (((addSnippetEvent true true fid st).1).snippets)) ∧
    (∀ sn, (updateSnippetList st.snippets pid u).find? (fun s => s.id == pid) = some sn →
      ((updateSnippetEvent true true pid u st).1).useLocalStorage = true ∧
      ((updateSnippetEvent true true pid u st).1).snippets =
        updateSnippetList st.snippets pid u ∧
      ((updateSnippetEvent true true pid u st).1).localBlob =
        some (((updateSnippetEvent true true pid u st).1).snippets)) ∧
    ((addSnippetEvent true rf fid ((addSnippetEvent true true fid st).1)).2 = true ∧
     (deleteSnippetEvent true rf did ((addSnippetEvent true true fid st).1)).2 = true ∧
     ∀ sn, (updateSnippetList ((addSnippetEvent true true fid st).1).snippets pid u).find?
         (fun s => s.id == pid) = some sn →
       (updateSnippetEvent true rf pid u ((addSnippetEvent true true fid st).1)).2 = true) := by
  refine ⟨?_, ?_, ?_⟩
  · rw [addSnippetEvent_fail]
    exact ⟨rfl, rfl, rfl⟩
  · intro sn h
    rw [updateSnippetEvent_fail pid u st sn h]
    exact ⟨rfl, rfl, rfl⟩
  · exact ⟨addSnippetEvent_attempted rf fid _,
      deleteSnippetEvent_attempted true rf did _,
      fun sn h => updateSnippetEvent_attempted rf pid u _ sn h⟩

end MusicBites

namespace MusicBites

theorem remote_upsert_failure_demotes_witness :
    ((addSnippetEvent true true "f"
        { snippets := [newSnippet "a" 0], currentlyPlaying := none,
          useLocalStorage := false, localBlob := none,
          audioRefs := ∅, playing := ∅ }).1).useLocalStorage = true ∧
    (deleteSnippetEvent true false "d"
        ((addSnippetEvent true true "f"
          { snippets := [newSnippet "a" 0], currentlyPlaying := none,
            useLocalStorage := false, localBlob := none,
            audioRefs := ∅, playing := ∅ }).1)).2 = true ∧
    ((updateSnippetEvent true true "a" (.notes "x")
        { snippets := [newSnippet "a" 0], currentlyPlaying := none,
          useLocalStorage := false, localBlob := none,
          audioRefs := ∅, playing := ∅ }).1).localBlob =
      some (updateSnippetList [newSnippet "a" 0] "a" (.notes "x")) := by
  have h := remote_upsert_failure_demotes
    { snippets := [newSnippet "a" 0], currentlyPlaying := none,
      useLocalStorage := false, localBlob := none, audioRefs := ∅, playing := ∅ }
    "f" "a" "d" (.notes "x") false rfl
  refine ⟨h.1.1, h.2.2.2.1, ?_⟩
  have h2 := (h.2.1 ((newSnippet "a" 0).setField (.notes "x")) (by decide)).2
  rw [h2.2, h2.1]

/-- C1 counterexample: the claim's clause "every subsequent operation
routes to Local without re-attempting Remote" is false.  Starting from
Remote mode with an empty collection, a failed remote upsert during an
`addNewSnippet` switches the flag to Local, but a subsequent
`updateSnippet` on the very state it produced still attempts a remote
upsert (`saveSnippet` consults only the client's presence, not the
fallback flag). -/
theorem remote_failure_reattempt_counterexample :
    ((addSnippetEvent true true "1"
        { snippets := [], currentlyPlaying := none, useLocalStorage := false,
          localBlob := none, audioRefs := ∅, playing := ∅ }).1).useLocalStorage = true ∧
    (updateSnippetEvent true false "1" (.notes "x")
        ((addSnippetEvent true true "1"
          { snippets := [], currentlyPlaying := none, useLocalStorage := false,
            localBlob := none, audioRefs := ∅, playing := ∅ }).1)).2 = true := by
  decide

end MusicBites

namespace MusicBites

theorem handleSpotify_song_name_preserved (hS rf1 rf2 : Bool) (id url : String)
    (info : Option String) (st : AppState) :
    List.Forall₂ (fun s t => s.song_name ≠ "" → t.song_name = s.song_name)
      st.snippets (handleSpotifyUrlChange hS rf1 rf2 id url info st).snippets := by
  unfold handleSpotifyUrlChange
  dsimp only
  repeat' split
  all_goals simp only [runEffect_snippets, saveSnippet_fst_snippets]
  all_goals apply forall₂_map_self
  all_goals intro s hs hne
  all_goals by_cases hid : s.id = id <;> simp [hid, hne]

theorem handleSoundCloud_song_name_preserved (hS rf1 rf2 : Bool) (id url : String)
    (info : Option String) (st : AppState) :
    List.Forall₂ (fun s t => s.song_name ≠ "" → t.song_name = s.song_name)
      st.snippets (handleSoundCloudUrlChange hS rf1 rf2 id url info st).snippets := by
  unfold handleSoundCloudUrlChange
  dsimp only
  repeat' split
  all_goals simp only [runEffect_snippets, saveSnippet_fst_snippets]
  all_goals apply forall₂_map_self
  all_goals intro s hs hne
  all_goals by_cases hid : s.id = id <;> simp [hid, hne]

theorem handleSpotify_title_applied (hS rf1 rf2 : Bool) (id url title : String)
    (st : AppState) (hurl : url ≠ "")
    (hincl : jsIncludes url "spotify.com/track/" = true) (htitle : title ≠ "") :
    List.Forall₂ (fun s t => s.id = id → s.song_name = "" → t.song_name = title)
      st.snippets (handleSpotifyUrlChange hS rf1 rf2 id url (some title) st).snippets := by
  unfold handleSpotifyUrlChange
  dsimp only
  rw [if_pos (by simp [hurl, hincl]), if_pos (by simp [htitle])]
  repeat' split
  all_goals simp only [runEffect_snippets, saveSnippet_fst_snippets]
  all_goals apply forall₂_map_self
  all_goals intro s hs hid hempty
  all_goals simp [hid, hempty]

/-- C9: the metadata-enrichment path never overwrites a non-empty
`song_name`: under any fetch outcome, every snippet whose `song_name` is
non-empty keeps it through a Spotify or SoundCloud URL-change event; and
when the lookup succeeds (matching URL, non-empty title), the fetched
title is applied exactly to the targeted snippet whose `song_name` is
empty at that point. -/
theorem enrichment_never_overwrites_name (hS rf1 rf2 : Bool) (id url : String)
    (info : Option String) (st : AppState) :
    List.Forall₂ (fun s t => s.song_name ≠ "" → t.song_name = s.song_name)
      st.snippets (handleSpotifyUrlChange hS rf1 rf2 id url info st).snippets ∧
    List.Forall₂ (fun s t => s.song_name ≠ "" → t.song_name = s.song_name)
      st.snippets (handleSoundCloudUrlChange hS rf1 rf2 id url info st).snippets ∧
    (∀ title, info = some title → title ≠ "" → url ≠ "" →
      jsIncludes url "spotify.com/track/" = true →
      List.Forall₂ (fun s t => s.id = id → s.song_name = "" → t.song_name = title)
        st.snippets (handleSpotifyUrlChange hS rf1 rf2 id url info st).snippets) :=
  ⟨handleSpotify_song_name_preserved hS rf1 rf2 id url info st,
   handleSoundCloud_song_name_preserved hS rf1 rf2 id url info st,
   fun title hinfo htitle hurl hincl => by
     subst hinfo
     exact handleSpotify_title_applied hS rf1 rf2 id url title st hurl hincl htitle⟩

theorem enrichment_never_overwrites_name_witness :
    List.Forall₂ (fun s t => s.id = "a" → s.song_name = "" → t.song_name = "T")
      [newSnippet "a" 0]
      (handleSpotifyUrlChange true false false "a" "https://open.spotify.com/track/xyz"
        (some "T")
        { snippets := [newSnippet "a" 0], currentlyPlaying := none,
          useLocalStorage := false, localBlob := none,
          audioRefs := ∅, playing := ∅ }).snippets :=
  (enrichment_never_overwrites_name true false false "a"
      "https://open.spotify.com/track/xyz" (some "T")
      { snippets := [newSnippet "a" 0], currentlyPlaying := none,
        useLocalStorage := false, localBlob := none,
        audioRefs := ∅, playing := ∅ }).2.2 "T" rfl (by decide) (by decide) (by decide)

end MusicBites

namespace MusicBites

theorem char_digit_canon (c : Char) (h : c.isDigit = true) :
    ∃ a, a < 10 ∧ c = digitChar a := by
  simp [Char.isDigit] at h
  obtain ⟨h1, h2⟩ := h
  have b1 : 48 ≤ c.toNat := h1
  have b2 : c.toNat ≤ 57 := h2
  refine ⟨c.toNat - 48, by omega, ?_⟩
  have he : 48 + (c.toNat - 48) = c.toNat := by omega
  rw [digitChar, he, Char.ofNat_toNat]

theorem digitChar_ne_colon : ∀ a < 10, digitChar a ≠ ':' := by decide

theorem digitChar_le_five : ∀ a < 10, digitChar a ≤ '5' → a ≤ 5 := by decide

theorem digitChar_ne_zero : ∀ a < 10, a ≠ 0 → digitChar a ≠ '0' := by decide

theorem parse_digit1 : ∀ a < 10, parseIntOr0 (String.mk [digitChar a]) = Int.ofNat a := by
  decide

theorem parse_digit2 : ∀ a < 10, ∀ b < 10,
    parseIntOr0 (String.mk [digitChar a, digitChar b]) = Int.ofNat (10 * a + b) := by
  decide

theorem toString_digit : ∀ a < 10, toString a = String.mk [digitChar a] := by decide

theorem toString_two_digits : ∀ a < 10, ∀ b < 10, a ≠ 0 →
    toString (10 * a + b) = String.mk [digitChar a, digitChar b] := by decide

theorem pad2_two_digits : ∀ t < 6, ∀ b < 10,
    padStart (toString (10 * t + b)) 2 '0' = String.mk [digitChar t, digitChar b] := by
  decide

theorem splitOnChar_time4 (c1 c2 c3 : Char) (h1 : c1 ≠ ':') (h2 : c2 ≠ ':')
    (h3 : c3 ≠ ':') : splitOnChar ':' [c1, ':', c2, c3] = [[c1], [c2, c3]] := by
  simp [splitOnChar, h1, h2, h3]

theorem splitOnChar_time5 (c1 c2 c3 c4 : Char) (h1 : c1 ≠ ':') (h2 : c2 ≠ ':')
    (h3 : c3 ≠ ':') (h4 : c4 ≠ ':') :
    splitOnChar ':' [c1, c2, ':', c3, c4] = [[c1, c2], [c3, c4]] := by
  simp [splitOnChar, h1, h2, h3, h4]

theorem secondsToTime_ofNat (m sec : Nat) (hsec : sec < 60) :
    secondsToTime (Int.ofNat (60 * m + sec)) =
      toString m ++ ":" ++ padStart (toString sec) 2 '0' := by
  unfold secondsToTime
  rw [show (60 : Int) = Int.ofNat 60 from rfl, fdiv_ofNat, tmod_ofNat]
  have h1 : (60 * m + sec) / 60 = m := by omega
  have h2 : (60 * m + sec) % 60 = sec := by omega
  rw [h1, h2]
  rfl

theorem timeToSeconds4 (a t b : Nat) (ha : a < 10) (ht : t < 10) (hb : b < 10) :
    timeToSeconds (String.mk [digitChar a, ':', digitChar t, digitChar b]) =
      Int.ofNat (60 * a + (10 * t + b)) := by
  unfold timeToSeconds jsSplit
  rw [show (String.mk [digitChar a, ':', digitChar t, digitChar b]).data =
    [digitChar a, ':', digitChar t, digitChar b] from rfl]
  rw [splitOnChar_time4 _ _ _ (digitChar_ne_colon a ha) (digitChar_ne_colon t ht)
    (digitChar_ne_colon b hb)]
  dsimp only [List.map]
  rw [parse_digit1 a ha, parse_digit2 t ht b hb]
  simp only [Int.ofNat_eq_coe]
  push_cast
  ring

theorem timeToSeconds5 (a b t u : Nat) (ha : a < 10) (hb : b < 10) (ht : t < 10)
    (hu : u < 10) :
    timeToSeconds (String.mk [digitChar a, digitChar b, ':', digitChar t, digitChar u]) =
      Int.ofNat (60 * (10 * a + b) + (10 * t + u)) := by
  unfold timeToSeconds jsSplit
  rw [show (String.mk [digitChar a, digitChar b, ':', digitChar t, digitChar u]).data =
    [digitChar a, digitChar b, ':', digitChar t, digitChar u] from rfl]
  rw [splitOnChar_time5 _ _ _ _ (digitChar_ne_colon a ha) (digitChar_ne_colon b hb)
    (digitChar_ne_colon t ht) (digitChar_ne_colon u hu)]
  dsimp only [List.map]
  rw [parse_digit2 a ha b hb, parse_digit2 t ht u hu]
  simp only [Int.ofNat_eq_coe]
  push_cast
  ring

end MusicBites

namespace MusicBites

/-- C2 (amended): for every validator-accepted time string whose seconds
field is below 60, parse-then-format is the identity up to zero-padding
normalization of the minutes part. -/
theorem time_roundtrip_amended (s : String) (hv : validateTimeFormat s = true)
    (hlt : secondsPartLt60 s = true) :
    secondsToTime (timeToSeconds s) = stripMinutePad s := by
  obtain ⟨data⟩ := s
  rcases data with _ | ⟨c1, _ | ⟨c2, _ | ⟨c3, _ | ⟨c4, _ | ⟨c5, _ | ⟨c6, rest⟩⟩⟩⟩⟩⟩
  · simp [validateTimeFormat] at hv
  · simp [validateTimeFormat] at hv
  · simp [validateTimeFormat] at hv
  · simp [validateTimeFormat] at hv
  · -- "M:SS"
    simp only [validateTimeFormat, Bool.and_eq_true, decide_eq_true_eq] at hv
    obtain ⟨⟨⟨hd1, hc⟩, hd3⟩, hd4⟩ := hv
    subst hc
    simp only [secondsPartLt60, decide_eq_true_eq] at hlt
    obtain ⟨a, ha, rfl⟩ := char_digit_canon c1 hd1
    obtain ⟨t, ht, rfl⟩ := char_digit_canon c3 hd3
    obtain ⟨b, hb, rfl⟩ := char_digit_canon c4 hd4
    have ht5 : t ≤ 5 := digitChar_le_five t ht hlt
    rw [timeToSeconds4 a t b ha ht hb,
        secondsToTime_ofNat a (10 * t + b) (by omega),
        toString_digit a ha,
        pad2_two_digits t (by omega) b hb]
    rfl
  · -- "MM:SS"
    simp only [validateTimeFormat, Bool.and_eq_true, decide_eq_true_eq] at hv
    obtain ⟨⟨⟨⟨hd1, hd2⟩, hc⟩, hd4⟩, hd5⟩ := hv
    subst hc
    simp only [secondsPartLt60, decide_eq_true_eq] at hlt
    obtain ⟨a, ha, rfl⟩ := char_digit_canon c1 hd1
    obtain ⟨b, hb, rfl⟩ := char_digit_canon c2 hd2
    obtain ⟨t, ht, rfl⟩ := char_digit_canon c4 hd4
    obtain ⟨u, hu, rfl⟩ := char_digit_canon c5 hd5
    have ht5 : t ≤ 5 := digitChar_le_five t ht hlt
    rw [timeToSeconds5 a b t u ha hb ht hu,
        secondsToTime_ofNat (10 * a + b) (10 * t + u) (by omega),
        pad2_two_digits t (by omega) u hu]
    by_cases haz : a = 0
    · subst haz
      rw [show 10 * 0 + b = b from by omega, toString_digit b hb]
      have h0 : stripMinutePad
          (String.mk [digitChar 0, digitChar b, ':', digitChar t, digitChar u]) =
          String.mk [digitChar b, ':', digitChar t, digitChar u] := by
        simp [stripMinutePad, show digitChar 0 = '0' from rfl]
      rw [h0]
      rfl
    · have hne := digitChar_ne_zero a ha haz
      rw [toString_two_digits a ha b hb haz]
      have h1 : stripMinutePad
          (String.mk [digitChar a, digitChar b, ':', digitChar t, digitChar u]) =
          String.mk [digitChar a, digitChar b, ':', digitChar t, digitChar u] := by
        simp [stripMinutePad, hne]
      rw [h1]
      rfl
  · simp [validateTimeFormat] at hv

end MusicBites


namespace MusicBites

/-- C2 counterexample: the round trip is not the identity on all
validator-accepted strings.  `"0:99"` is accepted (`\d{1,2}:\d{2}`
places no bound on the seconds value), but parse-then-format
renormalizes it to `"1:39"`; since neither string has a zero-padded
minutes part, no zero-padding normalization reconciles them. -/
theorem time_roundtrip_counterexample :
    validateTimeFormat "0:99" = true ∧
    secondsToTime (timeToSeconds "0:99") = "1:39" ∧
    stripMinutePad "0:99" = "0:99" ∧
    secondsToTime (timeToSeconds "0:99") ≠ "0:99" := by decide

theorem time_roundtrip_amended_witness :
    validateTimeFormat "2:05" = true ∧ secondsPartLt60 "2:05" = true ∧
    secondsToTime (timeToSeconds "2:05") = stripMinutePad "2:05" :=
  ⟨by decide, by decide, time_roundtrip_amended "2:05" (by decide) (by decide)⟩

end MusicBites
